import Mathlib

/-!
Shallow embedding of the Lightning classifier of `cltv-scan`
(`src/lightning/detector.rs` and `src/lightning/types.rs`), together with
proofs settling the specification claims about it.

Machine integers (`u32`, `u64`) are modelled as `Nat`; every bit operation
of the source (`>> 24`, `& 0x00FFFFFF`, `<< 24`, `|`) is written with the
corresponding `Nat` operation, which agrees with the Rust semantics on the
in-range values the source manipulates (no operation below can overflow:
shifts right and masks shrink their argument, and the 48-bit commitment
number fits `u64`).  Strings are Lean `String`s; the byte-length test
`elem.len() == 64` combined with the all-ASCII-hex test is equivalent to
the char-count test used here, since a string of ASCII characters has
byte length equal to its char count, and a non-ASCII string fails the hex
test either way.
-/

/- ── String helpers (Rust `str` operations used by the detector) ── -/

/-- Whether `needle` occurs at the start of `hay` (char lists). -/
def starts_with : List Char → List Char → Bool
  | [], _ => true
  | _ :: _, [] => false
  | c :: cs, d :: ds => c == d && starts_with cs ds

/-- Whether `needle` occurs as a contiguous substring of `hay`
(Rust `str::contains` with a string pattern). -/
def has_substring (needle : List Char) : List Char → Bool
  | [] => needle.isEmpty
  | d :: hay => starts_with needle (d :: hay) || has_substring needle hay

/-- Rust `hay.contains(needle)`. -/
def str_contains (hay needle : String) : Bool :=
  has_substring needle.data hay.data

/-- Rust `char::is_ascii_hexdigit`. -/
def is_ascii_hexdigit (c : Char) : Bool :=
  (('0' ≤ c) && (c ≤ '9')) || (('a' ≤ c) && (c ≤ 'f')) || (('A' ≤ c) && (c ≤ 'F'))

/-- Rust `char::is_ascii_digit` (`u16::from_str` accepts exactly these). -/
def is_ascii_digit (c : Char) : Bool :=
  ('0' ≤ c) && (c ≤ '9')

/-- Value of a non-empty all-decimal-digit char list, else `none`. -/
def dec_value (cs : List Char) : Option Nat :=
  if cs.isEmpty then none
  else if cs.all is_ascii_digit then
    some (cs.foldl (fun a c => a * 10 + (c.toNat - 48)) 0)
  else none

/-- Rust `s.parse::<u16>()`: optional leading `+`, then decimal digits,
value at most `65535`. -/
def parse_u16 (s : String) : Option Nat :=
  let cs := match s.data with
    | '+' :: rest => rest
    | cs => cs
  match dec_value cs with
  | some v => if v ≤ 65535 then some v else none
  | none => none

/-- Tokenizer accumulator: splits on whitespace runs, dropping empties. -/
def tok_aux : List Char → List Char → List String
  | [], acc => if acc.isEmpty then [] else [String.mk acc.reverse]
  | c :: rest, acc =>
    if c.isWhitespace then
      if acc.isEmpty then tok_aux rest []
      else String.mk acc.reverse :: tok_aux rest []
    else tok_aux rest (c :: acc)

/-- Rust `str::split_whitespace().collect()`. -/
def split_ws (s : String) : List String :=
  tok_aux s.data []

/- ── Data model (`ApiTransaction` as consumed by the detector, spec §3) ── -/

/-- A transaction input: the fields of `ApiVin` the classifier reads. -/
structure ApiVin where
  sequence : Nat
  is_coinbase : Bool
  witness : Option (List String)
  inner_witnessscript_asm : Option String
deriving DecidableEq

/-- A transaction output: the fields of `ApiVout` the classifier reads. -/
structure ApiVout where
  value : Nat
  scriptpubkey_type : String
deriving DecidableEq

/-- The transaction record consumed by `classify_lightning`. -/
structure ApiTransaction where
  locktime : Nat
  vin : List ApiVin
  vout : List ApiVout
deriving DecidableEq

/- ── Result types (`src/lightning/types.rs`) ── -/

/-- Confidence level; the Rust `derive(PartialOrd, Ord)` order is
declaration order `None < Possible < HighlyLikely`. -/
inductive Confidence where
  | None
  | Possible
  | HighlyLikely
deriving DecidableEq

/-- Rank of a confidence level in the derived order. -/
def Confidence.toNat : Confidence → Nat
  | Confidence.None => 0
  | Confidence.Possible => 1
  | Confidence.HighlyLikely => 2

/-- Rust `a >= b` on `Confidence` (derived `Ord`). -/
def confidence_ge (a b : Confidence) : Bool :=
  decide (b.toNat ≤ a.toNat)

/-- The Lightning transaction type tags. -/
inductive LightningTxType where
  | Commitment
  | HtlcTimeout
  | HtlcSuccess
deriving DecidableEq

/-- Signals found when checking for commitment transaction patterns. -/
structure CommitmentSignals where
  locktime_match : Bool
  sequence_match : Bool
  has_anchor_outputs : Bool
  anchor_output_count : Nat
deriving DecidableEq

/-- Rust `CommitmentSignals::default()`. -/
def CommitmentSignals.default : CommitmentSignals :=
  ⟨false, false, false, 0⟩

/-- Signals found when checking for HTLC second-stage patterns. -/
structure HtlcSignals where
  locktime_value : Nat
  has_preimage : Bool
  preimage : Option String
  script_has_cltv : Bool
  script_has_csv : Bool
deriving DecidableEq

/-- Rust `HtlcSignals::default()`. -/
def HtlcSignals.default : HtlcSignals :=
  ⟨0, false, none, false, false⟩

/-- Extracted Lightning-specific parameters. -/
structure LightningParams where
  commitment_number : Option Nat
  htlc_output_count : Option Nat
  cltv_expiry : Option Nat
  csv_delays : List Nat
  preimage_revealed : Bool
  preimage : Option String
deriving DecidableEq

/-- Rust `LightningParams::default()`. -/
def LightningParams.default : LightningParams :=
  ⟨none, none, none, [], false, none⟩

/-- Complete Lightning identification result. -/
structure LightningClassification where
  tx_type : Option LightningTxType
  confidence : Confidence
  commitment_signals : CommitmentSignals
  htlc_signals : HtlcSignals
  params : LightningParams
deriving DecidableEq

/- ── The detector (`src/lightning/detector.rs`) ── -/

/-- `const ANCHOR_VALUE: u64 = 330`. -/
def ANCHOR_VALUE : Nat := 330

/-- Commitment locktime pattern: upper byte `0x20`. -/
def is_lightning_locktime (locktime : Nat) : Bool :=
  locktime >>> 24 == 0x20

/-- Commitment input sequence pattern: upper byte `0x80`. -/
def is_lightning_sequence (sequence : Nat) : Bool :=
  sequence >>> 24 == 0x80

/-- `detect_commitment_signals`. -/
def detect_commitment_signals (tx : ApiTransaction) : CommitmentSignals :=
  let locktime_match := is_lightning_locktime tx.locktime
  let sequence_match := tx.vin.any (fun v => is_lightning_sequence v.sequence)
  let anchor_output_count := (tx.vout.filter (fun o => o.value == ANCHOR_VALUE)).length
  ⟨locktime_match, sequence_match, decide (anchor_output_count > 0), anchor_output_count⟩

/-- `commitment_confidence`: map the number of matching signals to a level. -/
def commitment_confidence (signals : CommitmentSignals) : Confidence :=
  let score := (if signals.locktime_match then 1 else 0)
    + (if signals.sequence_match then 1 else 0)
    + (if signals.has_anchor_outputs then 1 else 0)
  match score with
  | 0 => Confidence.None
  | 1 => Confidence.Possible
  | _ => Confidence.HighlyLikely

/-- `is_valid_hex`: every char an ASCII hex digit. -/
def is_valid_hex (s : String) : Bool :=
  s.data.all is_ascii_hexdigit

/-- The first witness element of a stack that looks like a 32-byte
preimage (64 hex chars); the Rust loop `break`s at the first hit. -/
def find_preimage_in (witness : List String) : Option String :=
  witness.find? (fun elem => elem.length == 64 && is_valid_hex elem)

/-- The preimage candidate an input contributes, if any. -/
def input_preimage (vin : ApiVin) : Option String :=
  match vin.witness with
  | some w => find_preimage_in w
  | none => none

/-- Whether an input's inner witness-script asm triggers the CLTV check
(Rust `str::contains`, substring matching). -/
def input_has_cltv (vin : ApiVin) : Bool :=
  match vin.inner_witnessscript_asm with
  | some asm => str_contains asm "OP_CHECKLOCKTIMEVERIFY" || str_contains asm "OP_CLTV"
  | none => false

/-- Whether an input's inner witness-script asm triggers the CSV check. -/
def input_has_csv (vin : ApiVin) : Bool :=
  match vin.inner_witnessscript_asm with
  | some asm => str_contains asm "OP_CHECKSEQUENCEVERIFY" || str_contains asm "OP_CSV"
  | none => false

/-- The `for vin in &tx.vin` loop of `detect_htlc_signals`, carrying the
four mutable locals `has_preimage`, `preimage`, `script_has_cltv`,
`script_has_csv`.  Each input with a preimage candidate overwrites
`preimage` (the Rust `break` only leaves the inner witness loop). -/
def htlc_loop : List ApiVin → Bool → Option String → Bool → Bool →
    Bool × Option String × Bool × Bool
  | [], has_preimage, preimage, script_has_cltv, script_has_csv =>
    (has_preimage, preimage, script_has_cltv, script_has_csv)
  | vin :: rest, has_preimage, preimage, script_has_cltv, script_has_csv =>
    let found := input_preimage vin
    htlc_loop rest
      (has_preimage || found.isSome)
      (match found with
       | some elem => some elem
       | none => preimage)
      (script_has_cltv || input_has_cltv vin)
      (script_has_csv || input_has_csv vin)

/-- `detect_htlc_signals`. -/
def detect_htlc_signals (tx : ApiTransaction) : HtlcSignals :=
  let r := htlc_loop tx.vin false none false false
  ⟨tx.locktime, r.1, r.2.1, r.2.2.1, r.2.2.2⟩

/-- `is_realistic_block_height`: nonzero, below the Unix-time threshold,
and not the Lightning locktime encoding. -/
def is_realistic_block_height (locktime : Nat) : Bool :=
  decide (locktime > 0) && decide (locktime < 500000000) && (locktime >>> 24 != 0x20)

/-- Scan a token list, collecting the parsed `u16` immediately before
every CSV opcode token (`extract_csv_delays_from_inputs` inner loops);
`prev` is the token at `i - 1`, absent at the first position. -/
def csv_scan : Option String → List String → List Nat
  | _, [] => []
  | prev, t :: rest =>
    (if t == "OP_CHECKSEQUENCEVERIFY" || t == "OP_CSV" then
      match prev with
      | some p =>
        match parse_u16 p with
        | some v => [v]
        | none => []
      | none => []
    else []) ++ csv_scan (some t) rest

/-- `extract_csv_delays_from_inputs`. -/
def extract_csv_delays_from_inputs (tx : ApiTransaction) : List Nat :=
  tx.vin.foldl
    (fun delays vin =>
      match vin.inner_witnessscript_asm with
      | some asm => delays ++ csv_scan none (split_ws asm)
      | none => delays)
    []

/-- `extract_commitment_params`. -/
def extract_commitment_params (tx : ApiTransaction) (signals : CommitmentSignals) :
    LightningParams :=
  let commitment_number :=
    if signals.locktime_match && signals.sequence_match then
      let locktime_lower := tx.locktime &&& 0xFFFFFF
      let seq_lower :=
        match tx.vin.find? (fun v => is_lightning_sequence v.sequence) with
        | some v => v.sequence &&& 0xFFFFFF
        | none => 0
      some ((seq_lower <<< 24) ||| locktime_lower)
    else
      none
  let htlc_output_count :=
    (tx.vout.filter (fun o => o.scriptpubkey_type == "v0_p2wsh" && o.value != ANCHOR_VALUE)).length
  let htlc_output_count := htlc_output_count - 1
  let csv_delays := extract_csv_delays_from_inputs tx
  ⟨commitment_number, some htlc_output_count, none, csv_delays, false, none⟩

/-- `classify_htlc`. -/
def classify_htlc (tx : ApiTransaction) (signals : HtlcSignals) :
    Option (LightningTxType × Confidence × LightningParams) :=
  let has_htlc_script := signals.script_has_cltv || signals.script_has_csv
  if !has_htlc_script then
    none
  else
    let csv_delays := extract_csv_delays_from_inputs tx
    if signals.has_preimage && tx.locktime == 0 then
      some (LightningTxType.HtlcSuccess, Confidence.HighlyLikely,
        ⟨none, none, none, csv_delays, true, signals.preimage⟩)
    else if !signals.has_preimage && is_realistic_block_height tx.locktime then
      some (LightningTxType.HtlcTimeout, Confidence.HighlyLikely,
        ⟨none, none, some tx.locktime, csv_delays, false, none⟩)
    else if has_htlc_script then
      some (LightningTxType.HtlcTimeout, Confidence.Possible,
        ⟨none, none,
          (if is_realistic_block_height tx.locktime then some tx.locktime else none),
          csv_delays, false, none⟩)
    else
      none

/-- `not_lightning`: the zero classification. -/
def not_lightning : LightningClassification :=
  ⟨none, Confidence.None, CommitmentSignals.default, HtlcSignals.default,
    LightningParams.default⟩

/-- `classify_lightning`: the classifier entry point. -/
def classify_lightning (tx : ApiTransaction) : LightningClassification :=
  if tx.vin.any (fun v => v.is_coinbase) then
    not_lightning
  else
    let commitment_signals := detect_commitment_signals tx
    let htlc_signals := detect_htlc_signals tx
    let cc := commitment_confidence commitment_signals
    if confidence_ge cc Confidence.Possible then
      ⟨some LightningTxType.Commitment, cc, commitment_signals, htlc_signals,
        extract_commitment_params tx commitment_signals⟩
    else
      match classify_htlc tx htlc_signals with
      | some (htlc_type, confidence, params) =>
        ⟨some htlc_type, confidence, commitment_signals, htlc_signals, params⟩
      | none =>
        ⟨none, Confidence.None, commitment_signals, htlc_signals,
          LightningParams.default⟩

/- ── Spec-side definitions (for comparison with the code) ── -/

/-- The spec's commitment signal score:
`locktime_match + sequence_match + has_anchor_outputs`, each 0 or 1. -/
def signal_score (s : CommitmentSignals) : Nat :=
  (if s.locktime_match then 1 else 0)
    + (if s.sequence_match then 1 else 0)
    + (if s.has_anchor_outputs then 1 else 0)

/-- The spec's confidence table: score 0 gives None, 1 gives Possible,
2 or more gives HighlyLikely. -/
def score_to_confidence (score : Nat) : Confidence :=
  if score = 0 then Confidence.None
  else if score = 1 then Confidence.Possible
  else Confidence.HighlyLikely

/-- Modelled from the spec: `contains_opcode(asm, names…)` is true iff
some whitespace token of `asm` equals one of the given opcode names
(exact token equality, not substring matching). -/
def contains_opcode (asm : String) (names : List String) : Bool :=
  (split_ws asm).any (fun t => names.any (fun n => t == n))

/-- Modelled from the spec: the first 64-hex-char witness element with
witness stacks scanned in input order, then stack order. -/
def first_preimage_spec (tx : ApiTransaction) : Option String :=
  tx.vin.findSome? input_preimage

/- ── Concrete transactions used by witnesses and counterexamples ── -/

/-- A 64-char all-hex string (witness preimage candidate). -/
def strA : String := "aaaaaaaaaaaaaaaaaaaaaaaaaaaaaaaaaaaaaaaaaaaaaaaaaaaaaaaaaaaaaaaa"

/-- A second, distinct 64-char all-hex string. -/
def strB : String := "bbbbbbbbbbbbbbbbbbbbbbbbbbbbbbbbbbbbbbbbbbbbbbbbbbbbbbbbbbbbbbbb"

/-- Input whose witness stack carries `strA`. -/
def vinA : ApiVin := ⟨0xFFFFFFFF, false, some [strA], none⟩

/-- Input whose witness stack carries `strB`. -/
def vinB : ApiVin := ⟨0xFFFFFFFF, false, some [strB], none⟩

/-- Two-input transaction: preimage candidates in both inputs. -/
def txC6 : ApiTransaction := ⟨0, [vinA, vinB], []⟩

/-- Input whose witness-script asm has `OP_CLTV` only inside a longer token. -/
def vinC7 : ApiVin := ⟨0, false, none, some "OP_CLTVFOO"⟩

/-- Transaction exercising substring opcode matching. -/
def txC7 : ApiTransaction := ⟨0, [vinC7], []⟩

/-- Minimal commitment-looking transaction (sequence signal only). -/
def tx_w1 : ApiTransaction := ⟨0, [⟨0x80000001, false, none, none⟩], []⟩

/-- HTLC-timeout-looking transaction (spec scenario S5). -/
def tx_w2 : ApiTransaction :=
  ⟨886100,
    [⟨0xFFFFFFFD, false, some ["", "3045", "00"],
      some "OP_CHECKLOCKTIMEVERIFY OP_DROP 1 OP_CHECKSEQUENCEVERIFY"⟩], []⟩

/-- Commitment transaction that also carries HTLC signals (spec S8). -/
def tx_w3 : ApiTransaction :=
  ⟨0x20000042, [⟨0x80000001, false, some [strA], some "OP_CLTV"⟩],
    [⟨330, "v0_p2wsh"⟩, ⟨330, "v0_p2wsh"⟩]⟩

/-- Coinbase transaction carrying otherwise-Lightning-looking data. -/
def tx_w4 : ApiTransaction :=
  ⟨0x20000042, [⟨0x80000001, true, some [strA], some "OP_CLTV"⟩],
    [⟨330, "v0_p2wsh"⟩, ⟨330, "v0_p2wsh"⟩]⟩

/-- Commitment input of spec scenario S4. -/
def vinS4 : ApiVin := ⟨0x80123456, false, none, none⟩

/-- Commitment transaction of spec scenario S4. -/
def txS4 : ApiTransaction := ⟨0x20ABCDEF, [vinS4], [⟨330, "v0_p2wsh"⟩]⟩

/-- Empty transaction: no inputs, no outputs. -/
def tx_empty : ApiTransaction := ⟨0, [], []⟩

/-- HTLC-success-looking transaction. -/
def tx_w10 : ApiTransaction :=
  ⟨0, [⟨0xFFFFFFFF, false, some [strA], some "1 OP_CSV"⟩], []⟩

/- ── Helper lemmas: bit arithmetic ── -/

/-- High-shifted value recovered from a 24-bit packing. -/
theorem lor_hi_shiftRight (a b : Nat) (hb : b < 2 ^ 24) :
    ((a <<< 24) ||| b) >>> 24 = a := by
  apply Nat.eq_of_testBit_eq
  intro i
  have hb' : b < 2 ^ (24 + i) :=
    lt_of_lt_of_le hb (Nat.pow_le_pow_right (by norm_num) (by omega))
  simp [Nat.testBit_shiftRight, Nat.testBit_lor, Nat.testBit_shiftLeft,
    Nat.testBit_lt_two_pow hb']

/-- Low 24 bits recovered from a 24-bit packing. -/
theorem lor_hi_mask (a b : Nat) (hb : b < 2 ^ 24) :
    ((a <<< 24) ||| b) &&& 0xFFFFFF = b := by
  apply Nat.eq_of_testBit_eq
  intro i
  have hmask : Nat.testBit 0xFFFFFF i = decide (i < 24) := by
    have hm : (0xFFFFFF : Nat) = 2 ^ 24 - 1 := by norm_num
    rw [hm, Nat.testBit_two_pow_sub_one]
  rw [Nat.testBit_land, Nat.testBit_lor, Nat.testBit_shiftLeft, hmask]
  rcases lt_or_ge i 24 with h | h
  · have h1 : ¬ (24 ≤ i) := by omega
    rw [decide_eq_false h1, decide_eq_true h]
    simp
  · have hb' : b < 2 ^ i :=
      lt_of_lt_of_le hb (Nat.pow_le_pow_right (by norm_num) h)
    have h2 : ¬ (i < 24) := by omega
    rw [decide_eq_false h2, Nat.testBit_lt_two_pow hb']
    simp

/- ── Helper lemmas: confidence and score ── -/

/-- The code's confidence computation matches the spec's score table. -/
theorem commitment_confidence_eq_score (s : CommitmentSignals) :
    commitment_confidence s = score_to_confidence (signal_score s) := by
  rcases s with ⟨lm, sm, ha, cnt⟩
  cases lm <;> cases sm <;> cases ha <;> rfl

/-- The commitment branch guard holds exactly when the score is ≥ 1. -/
theorem confidence_ge_possible_iff (s : CommitmentSignals) :
    confidence_ge (commitment_confidence s) Confidence.Possible = true ↔
      1 ≤ signal_score s := by
  rcases s with ⟨lm, sm, ha, cnt⟩
  cases lm <;> cases sm <;> cases ha <;>
    simp [confidence_ge, commitment_confidence, signal_score, Confidence.toNat]

/-- A zero score forces all three boolean signals to be false. -/
theorem score_zero_signals (s : CommitmentSignals) (h : signal_score s = 0) :
    s.locktime_match = false ∧ s.sequence_match = false ∧
      s.has_anchor_outputs = false := by
  rcases s with ⟨lm, sm, ha, cnt⟩
  cases lm <;> cases sm <;> cases ha <;> simp_all [signal_score]

/- ── Helper lemmas: unfolding `classify_lightning` ── -/

/-- Branch structure of the classifier on non-coinbase transactions. -/
theorem classify_not_coinbase (tx : ApiTransaction)
    (h : tx.vin.any (fun v => v.is_coinbase) = false) :
    classify_lightning tx =
      if confidence_ge (commitment_confidence (detect_commitment_signals tx))
          Confidence.Possible then
        ⟨some LightningTxType.Commitment,
          commitment_confidence (detect_commitment_signals tx),
          detect_commitment_signals tx, detect_htlc_signals tx,
          extract_commitment_params tx (detect_commitment_signals tx)⟩
      else
        match classify_htlc tx (detect_htlc_signals tx) with
        | some (htlc_type, confidence, params) =>
          ⟨some htlc_type, confidence, detect_commitment_signals tx,
            detect_htlc_signals tx, params⟩
        | none =>
          ⟨none, Confidence.None, detect_commitment_signals tx,
            detect_htlc_signals tx, LightningParams.default⟩ := by
  simp only [classify_lightning, h, Bool.false_eq_true, if_false]

/-- The classification of a non-coinbase transaction reports the
commitment signals computed by `detect_commitment_signals`. -/
theorem classify_commitment_signals_eq (tx : ApiTransaction)
    (h : tx.vin.any (fun v => v.is_coinbase) = false) :
    (classify_lightning tx).commitment_signals = detect_commitment_signals tx := by
  rw [classify_not_coinbase tx h]
  split
  · rfl
  · split <;> rfl

/-- The classification of a non-coinbase transaction reports the HTLC
signals computed by `detect_htlc_signals`. -/
theorem classify_htlc_signals_eq (tx : ApiTransaction)
    (h : tx.vin.any (fun v => v.is_coinbase) = false) :
    (classify_lightning tx).htlc_signals = detect_htlc_signals tx := by
  rw [classify_not_coinbase tx h]
  split
  · rfl
  · split <;> rfl

/- ── Helper lemmas: the HTLC signal loop ── -/

/-- `has_preimage` accumulates an or over the inputs. -/
theorem htlc_loop_fst (l : List ApiVin) (hp : Bool) (pre : Option String)
    (cltv csv : Bool) :
    (htlc_loop l hp pre cltv csv).1 =
      (hp || l.any (fun v => (input_preimage v).isSome)) := by
  induction l generalizing hp pre cltv csv with
  | nil => simp [htlc_loop]
  | cons v t ih => simp [htlc_loop, ih, Bool.or_assoc]

/-- The final `preimage` is the candidate of the last input that has one,
falling back to the initial accumulator. -/
theorem htlc_loop_snd (l : List ApiVin) (hp : Bool) (pre : Option String)
    (cltv csv : Bool) :
    (htlc_loop l hp pre cltv csv).2.1 =
      (l.reverse.findSome? input_preimage).or pre := by
  induction l generalizing hp pre cltv csv with
  | nil => simp [htlc_loop]
  | cons v t ih =>
    simp only [htlc_loop, ih, List.reverse_cons, List.findSome?_append]
    cases t.reverse.findSome? input_preimage <;>
      cases hv : input_preimage v <;> simp [Option.or, List.findSome?, hv]

/-- `script_has_cltv` accumulates an or over the inputs. -/
theorem htlc_loop_cltv (l : List ApiVin) (hp : Bool) (pre : Option String)
    (cltv csv : Bool) :
    (htlc_loop l hp pre cltv csv).2.2.1 = (cltv || l.any input_has_cltv) := by
  induction l generalizing hp pre cltv csv with
  | nil => simp [htlc_loop]
  | cons v t ih => simp [htlc_loop, ih, Bool.or_assoc]

/-- `script_has_csv` accumulates an or over the inputs. -/
theorem htlc_loop_csv (l : List ApiVin) (hp : Bool) (pre : Option String)
    (cltv csv : Bool) :
    (htlc_loop l hp pre cltv csv).2.2.2 = (csv || l.any input_has_csv) := by
  induction l generalizing hp pre cltv csv with
  | nil => simp [htlc_loop]
  | cons v t ih => simp [htlc_loop, ih, Bool.or_assoc]

/-- Closed form of `detect_htlc_signals`. -/
theorem detect_htlc_signals_eq (tx : ApiTransaction) :
    detect_htlc_signals tx =
      ⟨tx.locktime,
        tx.vin.any (fun v => (input_preimage v).isSome),
        tx.vin.reverse.findSome? input_preimage,
        tx.vin.any input_has_cltv,
        tx.vin.any input_has_csv⟩ := by
  show (⟨tx.locktime, (htlc_loop tx.vin false none false false).1,
    (htlc_loop tx.vin false none false false).2.1,
    (htlc_loop tx.vin false none false false).2.2.1,
    (htlc_loop tx.vin false none false false).2.2.2⟩ : HtlcSignals) = _
  rw [htlc_loop_fst, htlc_loop_snd, htlc_loop_cltv, htlc_loop_csv]
  cases tx.vin.reverse.findSome? input_preimage <;> simp [Option.or]

/- ── Helper lemmas: `classify_htlc` outcomes ── -/

/-- Every positive answer of `classify_htlc` is an HTLC type with the
parameter fields the corresponding branch constructs. -/
theorem classify_htlc_some (tx : ApiTransaction) (s : HtlcSignals)
    (t : LightningTxType) (c : Confidence) (p : LightningParams)
    (h : classify_htlc tx s = some (t, c, p)) :
    p.commitment_number = none ∧
      ((t = LightningTxType.HtlcSuccess ∧ c = Confidence.HighlyLikely ∧
          p.preimage_revealed = true ∧ p.preimage = s.preimage) ∨
        (t = LightningTxType.HtlcTimeout ∧ p.preimage_revealed = false ∧
          p.preimage = none ∧
          (c = Confidence.HighlyLikely ∨ c = Confidence.Possible))) := by
  simp only [classify_htlc] at h
  split at h
  · exact absurd h (by simp)
  · split at h
    · simp only [Option.some.injEq, Prod.mk.injEq] at h
      obtain ⟨rfl, rfl, rfl⟩ := h
      simp
    · split at h
      · simp only [Option.some.injEq, Prod.mk.injEq] at h
        obtain ⟨rfl, rfl, rfl⟩ := h
        simp
      · split at h
        · simp only [Option.some.injEq, Prod.mk.injEq] at h
          obtain ⟨rfl, rfl, rfl⟩ := h
          simp
        · exact absurd h (by simp)

/-- Commitment branch of the classifier: guard true. -/
theorem classify_commitment_branch (tx : ApiTransaction)
    (hcb : tx.vin.any (fun v => v.is_coinbase) = false)
    (hg : confidence_ge (commitment_confidence (detect_commitment_signals tx))
      Confidence.Possible = true) :
    classify_lightning tx =
      ⟨some LightningTxType.Commitment,
        commitment_confidence (detect_commitment_signals tx),
        detect_commitment_signals tx, detect_htlc_signals tx,
        extract_commitment_params tx (detect_commitment_signals tx)⟩ := by
  rw [classify_not_coinbase tx hcb, hg]
  simp

/-- HTLC branch of the classifier: guard false. -/
theorem classify_htlc_branch (tx : ApiTransaction)
    (hcb : tx.vin.any (fun v => v.is_coinbase) = false)
    (hg : confidence_ge (commitment_confidence (detect_commitment_signals tx))
      Confidence.Possible = false) :
    classify_lightning tx =
      match classify_htlc tx (detect_htlc_signals tx) with
      | some (htlc_type, confidence, params) =>
        ⟨some htlc_type, confidence, detect_commitment_signals tx,
          detect_htlc_signals tx, params⟩
      | none =>
        ⟨none, Confidence.None, detect_commitment_signals tx,
          detect_htlc_signals tx, LightningParams.default⟩ := by
  rw [classify_not_coinbase tx hcb, hg]
  simp

/-- C1: for every transaction with no coinbase input, the commitment
confidence computed inside `classify_lightning` equals the mapping of the
signal score (0 ↦ None, 1 ↦ Possible, ≥ 2 ↦ HighlyLikely), and whenever
the score is at least 1 the returned classification carries exactly this
confidence. -/
theorem C1_commitment_confidence_mapping (tx : ApiTransaction)
    (h : tx.vin.any (fun v => v.is_coinbase) = false) :
    commitment_confidence (detect_commitment_signals tx) =
        score_to_confidence (signal_score (detect_commitment_signals tx)) ∧
      (1 ≤ signal_score (detect_commitment_signals tx) →
        (classify_lightning tx).confidence =
          commitment_confidence (detect_commitment_signals tx)) := by
  refine ⟨commitment_confidence_eq_score _, fun hs => ?_⟩
  rw [classify_commitment_branch tx h ((confidence_ge_possible_iff _).mpr hs)]

/-- Witness for C1 at a concrete one-signal transaction. -/
theorem C1_witness :
    commitment_confidence (detect_commitment_signals tx_w1) =
        score_to_confidence (signal_score (detect_commitment_signals tx_w1)) ∧
      (classify_lightning tx_w1).confidence =
        commitment_confidence (detect_commitment_signals tx_w1) :=
  ⟨(C1_commitment_confidence_mapping tx_w1 (by decide)).1,
    (C1_commitment_confidence_mapping tx_w1 (by decide)).2 (by decide)⟩

/-- C3: for every transaction with no coinbase input whose commitment
signal score is at least 1, `classify_lightning` returns
`tx_type = Commitment` with the commitment parameters, never an HTLC
type, regardless of any HTLC signals present. -/
theorem C3_commitment_priority (tx : ApiTransaction)
    (h : tx.vin.any (fun v => v.is_coinbase) = false)
    (hs : 1 ≤ signal_score (detect_commitment_signals tx)) :
    (classify_lightning tx).tx_type = some LightningTxType.Commitment ∧
      (classify_lightning tx).params =
        extract_commitment_params tx (detect_commitment_signals tx) := by
  rw [classify_commitment_branch tx h ((confidence_ge_possible_iff _).mpr hs)]
  exact ⟨rfl, rfl⟩

/-- Witness for C3 at the S8 transaction: commitment signals plus a
64-hex witness element still classify as Commitment. -/
theorem C3_witness :
    (classify_lightning tx_w3).tx_type = some LightningTxType.Commitment ∧
      (classify_lightning tx_w3).params =
        extract_commitment_params tx_w3 (detect_commitment_signals tx_w3) :=
  C3_commitment_priority tx_w3 (by decide) (by decide)

/-- C4: a transaction with any coinbase input gets the zero
classification, all fields default, regardless of its other data. -/
theorem C4_coinbase_zero (tx : ApiTransaction)
    (h : tx.vin.any (fun v => v.is_coinbase) = true) :
    classify_lightning tx =
      ⟨none, Confidence.None, ⟨false, false, false, 0⟩,
        ⟨0, false, none, false, false⟩, ⟨none, none, none, [], false, none⟩⟩ := by
  simp [classify_lightning, h, not_lightning, CommitmentSignals.default,
    HtlcSignals.default, LightningParams.default]

/-- Witness for C4 at a coinbase transaction full of Lightning-looking
data. -/
theorem C4_witness :
    classify_lightning tx_w4 =
      ⟨none, Confidence.None, ⟨false, false, false, 0⟩,
        ⟨0, false, none, false, false⟩, ⟨none, none, none, [], false, none⟩⟩ :=
  C4_coinbase_zero tx_w4 (by decide)

/-- C8: for every transaction with no coinbase input, the commitment
signals satisfy: `locktime_match` iff the locktime's upper byte is
`0x20` (checked at the four boundaries), `sequence_match` iff some input
sequence has upper byte `0x80`, `anchor_output_count` counts the
330-satoshi outputs, and `has_anchor_outputs` iff that count is
positive. -/
theorem C8_commitment_signal_detection (tx : ApiTransaction)
    (h : tx.vin.any (fun v => v.is_coinbase) = false) :
    ((classify_lightning tx).commitment_signals.locktime_match =
        (tx.locktime >>> 24 == 0x20)) ∧
      ((classify_lightning tx).commitment_signals.sequence_match =
        tx.vin.any (fun v => v.sequence >>> 24 == 0x80)) ∧
      ((classify_lightning tx).commitment_signals.anchor_output_count =
        (tx.vout.filter (fun o => o.value == 330)).length) ∧
      ((classify_lightning tx).commitment_signals.has_anchor_outputs =
        decide (0 < (classify_lightning tx).commitment_signals.anchor_output_count)) ∧
      is_lightning_locktime 0x1FFFFFFF = false ∧
      is_lightning_locktime 0x20000000 = true ∧
      is_lightning_locktime 0x20FFFFFF = true ∧
      is_lightning_locktime 0x21000000 = false := by
  rw [classify_commitment_signals_eq tx h]
  exact ⟨rfl, rfl, rfl, rfl, by decide, by decide, by decide, by decide⟩

/-- Witness for C8 at a concrete transaction with a matching sequence. -/
theorem C8_witness :
    (classify_lightning tx_w1).commitment_signals.sequence_match =
        tx_w1.vin.any (fun v => v.sequence >>> 24 == 0x80) ∧
      tx_w1.vin.any (fun v => v.sequence >>> 24 == 0x80) = true :=
  ⟨(C8_commitment_signal_detection tx_w1 (by decide)).2.1, by decide⟩

/-- C5: packing `L24` into a Lightning locktime and `S24` into the first
Lightning-pattern input sequence of a non-coinbase anchored transaction
makes the classifier emit `commitment_number = (S24 <<< 24) ||| L24`;
and whenever `locktime_match` and `sequence_match` do not both hold, the
emitted `commitment_number` is `none`. -/
theorem C5_commitment_number_roundtrip :
    (∀ (L24 S24 : Nat) (tx : ApiTransaction) (v : ApiVin),
        L24 < 2 ^ 24 → S24 < 2 ^ 24 →
        tx.vin.any (fun i => i.is_coinbase) = false →
        tx.locktime = (0x20 <<< 24) ||| L24 →
        tx.vin.find? (fun i => is_lightning_sequence i.sequence) = some v →
        v.sequence = (0x80 <<< 24) ||| S24 →
        0 < (tx.vout.filter (fun o => o.value == ANCHOR_VALUE)).length →
        (classify_lightning tx).params.commitment_number =
          some ((S24 <<< 24) ||| L24)) ∧
      (∀ tx : ApiTransaction,
        ((detect_commitment_signals tx).locktime_match &&
            (detect_commitment_signals tx).sequence_match) = false →
        (classify_lightning tx).params.commitment_number = none) := by
  constructor
  · intro L24 S24 tx v hL hS hcb hlock hfind hseq hanch
    have h1 : (detect_commitment_signals tx).locktime_match = true := by
      show is_lightning_locktime tx.locktime = true
      rw [hlock]
      unfold is_lightning_locktime
      rw [lor_hi_shiftRight 0x20 L24 hL]
      rfl
    have h2 : (detect_commitment_signals tx).sequence_match = true := by
      show tx.vin.any (fun i => is_lightning_sequence i.sequence) = true
      rw [List.any_eq_true]
      have hv := List.find?_some hfind
      exact ⟨v, List.mem_of_find?_eq_some hfind, hv⟩
    have hscore : 1 ≤ signal_score (detect_commitment_signals tx) := by
      simp only [signal_score, h1, h2, eq_self_iff_true, if_true]
      omega
    rw [classify_commitment_branch tx hcb ((confidence_ge_possible_iff _).mpr hscore)]
    show (extract_commitment_params tx (detect_commitment_signals tx)).commitment_number =
      some ((S24 <<< 24) ||| L24)
    simp only [extract_commitment_params, h1, h2, Bool.and_self, if_true, hfind,
      hseq, hlock, lor_hi_mask 0x80 S24 hS, lor_hi_mask 0x20 L24 hL]
  · intro tx hlm_sm
    cases hcb : tx.vin.any (fun v => v.is_coinbase) with
    | true =>
      simp [classify_lightning, hcb, not_lightning, LightningParams.default]
    | false =>
      rw [classify_not_coinbase tx hcb]
      split
      · show (extract_commitment_params tx (detect_commitment_signals tx)).commitment_number = none
        simp only [extract_commitment_params, hlm_sm, Bool.false_eq_true, if_false]
      · rcases hch : classify_htlc tx (detect_htlc_signals tx) with _ | ⟨⟨t, c, p⟩⟩
        · rfl
        · exact (classify_htlc_some tx _ t c p hch).1

/-- Witness for C5 at the S4 scenario and at the empty transaction. -/
theorem C5_witness :
    (classify_lightning txS4).params.commitment_number =
        some ((0x123456 <<< 24) ||| 0xABCDEF) ∧
      (classify_lightning tx_empty).params.commitment_number = none :=
  ⟨C5_commitment_number_roundtrip.1 0xABCDEF 0x123456 txS4 vinS4 (by norm_num)
      (by norm_num) (by decide) (by decide) (by decide) (by decide) (by decide),
    C5_commitment_number_roundtrip.2 tx_empty (by decide)⟩

/-- C2: for every non-coinbase transaction with commitment signal score
0, classification follows the HTLC decision table: no CLTV/CSV script
gives None/None; with an HTLC script, a preimage and locktime 0 give
HtlcSuccess/HighlyLikely; no preimage and a realistic-height locktime
give HtlcTimeout/HighlyLikely with `cltv_expiry = locktime`; every other
case gives HtlcTimeout/Possible with `cltv_expiry = locktime` exactly
when the locktime is a realistic height. -/
theorem C2_htlc_decision_table (tx : ApiTransaction)
    (hcb : tx.vin.any (fun v => v.is_coinbase) = false)
    (hscore : signal_score (detect_commitment_signals tx) = 0) :
    ((detect_htlc_signals tx).script_has_cltv = false ∧
        (detect_htlc_signals tx).script_has_csv = false →
      (classify_lightning tx).tx_type = none ∧
        (classify_lightning tx).confidence = Confidence.None) ∧
      (((detect_htlc_signals tx).script_has_cltv ||
            (detect_htlc_signals tx).script_has_csv) = true →
        (detect_htlc_signals tx).has_preimage = true → tx.locktime = 0 →
        (classify_lightning tx).tx_type = some LightningTxType.HtlcSuccess ∧
          (classify_lightning tx).confidence = Confidence.HighlyLikely) ∧
      (((detect_htlc_signals tx).script_has_cltv ||
            (detect_htlc_signals tx).script_has_csv) = true →
        (detect_htlc_signals tx).has_preimage = false →
        is_realistic_block_height tx.locktime = true →
        (classify_lightning tx).tx_type = some LightningTxType.HtlcTimeout ∧
          (classify_lightning tx).confidence = Confidence.HighlyLikely ∧
          (classify_lightning tx).params.cltv_expiry = some tx.locktime) ∧
      (((detect_htlc_signals tx).script_has_cltv ||
            (detect_htlc_signals tx).script_has_csv) = true →
        ¬((detect_htlc_signals tx).has_preimage = true ∧ tx.locktime = 0) →
        ¬((detect_htlc_signals tx).has_preimage = false ∧
            is_realistic_block_height tx.locktime = true) →
        (classify_lightning tx).tx_type = some LightningTxType.HtlcTimeout ∧
          (classify_lightning tx).confidence = Confidence.Possible ∧
          (classify_lightning tx).params.cltv_expiry =
            (if is_realistic_block_height tx.locktime then some tx.locktime
             else none)) := by
  have hgf : confidence_ge (commitment_confidence (detect_commitment_signals tx))
      Confidence.Possible = false := by
    cases hgb : confidence_ge (commitment_confidence (detect_commitment_signals tx))
        Confidence.Possible with
    | false => rfl
    | true =>
      have := (confidence_ge_possible_iff _).mp hgb
      omega
  rw [classify_htlc_branch tx hcb hgf]
  refine ⟨?_, ?_, ?_, ?_⟩
  · rintro ⟨h1, h2⟩
    have hch : classify_htlc tx (detect_htlc_signals tx) = none := by
      simp [classify_htlc, h1, h2]
    rw [hch]
    exact ⟨rfl, rfl⟩
  · intro hhs hpre hlock
    have hch : classify_htlc tx (detect_htlc_signals tx) =
        some (LightningTxType.HtlcSuccess, Confidence.HighlyLikely,
          ⟨none, none, none, extract_csv_delays_from_inputs tx, true,
            (detect_htlc_signals tx).preimage⟩) := by
      simp [classify_htlc, hhs, hpre, hlock]
    rw [hch]
    exact ⟨rfl, rfl⟩
  · intro hhs hpre hreal
    have hch : classify_htlc tx (detect_htlc_signals tx) =
        some (LightningTxType.HtlcTimeout, Confidence.HighlyLikely,
          ⟨none, none, some tx.locktime, extract_csv_delays_from_inputs tx,
            false, none⟩) := by
      simp [classify_htlc, hhs, hpre, hreal]
    rw [hch]
    exact ⟨rfl, rfl, rfl⟩
  · intro hhs hn1 hn2
    cases hpre : (detect_htlc_signals tx).has_preimage with
    | true =>
      have hl0 : tx.locktime ≠ 0 := fun hh => hn1 ⟨hpre, hh⟩
      have hbeq : (tx.locktime == 0) = false := by
        simpa using hl0
      have hch : classify_htlc tx (detect_htlc_signals tx) =
          some (LightningTxType.HtlcTimeout, Confidence.Possible,
            ⟨none, none,
              (if is_realistic_block_height tx.locktime then some tx.locktime
               else none),
              extract_csv_delays_from_inputs tx, false, none⟩) := by
        simp [classify_htlc, hhs, hpre, hbeq]
      rw [hch]
      exact ⟨rfl, rfl, rfl⟩
    | false =>
      have hrf : is_realistic_block_height tx.locktime = false := by
        cases hr : is_realistic_block_height tx.locktime with
        | false => rfl
        | true => exact absurd ⟨hpre, hr⟩ hn2
      have hch : classify_htlc tx (detect_htlc_signals tx) =
          some (LightningTxType.HtlcTimeout, Confidence.Possible,
            ⟨none, none,
              (if is_realistic_block_height tx.locktime then some tx.locktime
               else none),
              extract_csv_delays_from_inputs tx, false, none⟩) := by
        simp [classify_htlc, hhs, hpre, hrf]
      rw [hch]
      exact ⟨rfl, rfl, rfl⟩

/-- Witness for C2 at the S5 HTLC-timeout transaction. -/
theorem C2_witness :
    (classify_lightning tx_w2).tx_type = some LightningTxType.HtlcTimeout ∧
      (classify_lightning tx_w2).confidence = Confidence.HighlyLikely ∧
      (classify_lightning tx_w2).params.cltv_expiry = some 886100 :=
  (C2_htlc_decision_table tx_w2 (by decide) (by decide)).2.2.1
    (by decide) (by decide) (by decide)

/-- C9: in every classification, Commitment implies confidence at least
Possible, and an absent transaction type implies confidence None. -/
theorem C9_txtype_confidence_invariant (tx : ApiTransaction) :
    ((classify_lightning tx).tx_type = some LightningTxType.Commitment →
        confidence_ge (classify_lightning tx).confidence Confidence.Possible = true) ∧
      ((classify_lightning tx).tx_type = none →
        (classify_lightning tx).confidence = Confidence.None) := by
  cases hcb : tx.vin.any (fun v => v.is_coinbase) with
  | true =>
    rw [show classify_lightning tx = not_lightning by simp [classify_lightning, hcb]]
    exact ⟨fun h => absurd h (by simp [not_lightning]), fun _ => rfl⟩
  | false =>
    cases hg : confidence_ge (commitment_confidence (detect_commitment_signals tx))
        Confidence.Possible with
    | true =>
      rw [classify_commitment_branch tx hcb hg]
      exact ⟨fun _ => hg, fun h => absurd h (by simp)⟩
    | false =>
      rw [classify_htlc_branch tx hcb hg]
      rcases hch : classify_htlc tx (detect_htlc_signals tx) with _ | ⟨⟨t, c, p⟩⟩
      · exact ⟨fun h => absurd h (by simp), fun _ => rfl⟩
      · refine ⟨fun h => ?_, fun h => absurd h (by simp)⟩
        have ht : t = LightningTxType.Commitment := by
          have h' : some t = some LightningTxType.Commitment := h
          simpa using h'
        rcases (classify_htlc_some tx _ t c p hch).2 with ⟨h1, _⟩ | ⟨h1, _⟩ <;>
          simp [ht] at h1

/-- Witness for C9 at a commitment-signalled and an empty transaction. -/
theorem C9_witness :
    confidence_ge (classify_lightning tx_w1).confidence Confidence.Possible = true ∧
      (classify_lightning tx_empty).confidence = Confidence.None :=
  ⟨(C9_txtype_confidence_invariant tx_w1).1 (by decide),
    (C9_txtype_confidence_invariant tx_empty).2 (by decide)⟩

/-- C10: `params.preimage_revealed` is true exactly when the
classification is HtlcSuccess; in every other outcome it is false and
`params.preimage` is `none`. -/
theorem C10_preimage_revealed_iff_success (tx : ApiTransaction) :
    ((classify_lightning tx).params.preimage_revealed = true ↔
        (classify_lightning tx).tx_type = some LightningTxType.HtlcSuccess) ∧
      ((classify_lightning tx).tx_type ≠ some LightningTxType.HtlcSuccess →
        (classify_lightning tx).params.preimage = none) := by
  cases hcb : tx.vin.any (fun v => v.is_coinbase) with
  | true =>
    rw [show classify_lightning tx = not_lightning by simp [classify_lightning, hcb]]
    exact ⟨by simp [not_lightning, LightningParams.default], fun _ => rfl⟩
  | false =>
    cases hg : confidence_ge (commitment_confidence (detect_commitment_signals tx))
        Confidence.Possible with
    | true =>
      rw [classify_commitment_branch tx hcb hg]
      constructor
      · constructor
        · intro h
          exact absurd h (by simp [extract_commitment_params])
        · intro h
          exact absurd h (by simp)
      · intro _
        simp [extract_commitment_params]
    | false =>
      rw [classify_htlc_branch tx hcb hg]
      rcases hch : classify_htlc tx (detect_htlc_signals tx) with _ | ⟨⟨t, c, p⟩⟩
      · exact ⟨by simp [LightningParams.default], fun _ => rfl⟩
      · rcases (classify_htlc_some tx _ t c p hch).2 with
          ⟨ht, hc, hrev, hpre⟩ | ⟨ht, hrev, hpre, hc⟩
        · subst ht
          constructor
          · show p.preimage_revealed = true ↔ _
            simp [hrev]
          · intro h
            exact absurd rfl h
        · subst ht
          constructor
          · show p.preimage_revealed = true ↔ _
            simp [hrev]
          · intro _
            exact hpre

/-- Witness for C10 at an HTLC-success and an empty transaction. -/
theorem C10_witness :
    (classify_lightning tx_w10).params.preimage_revealed = true ∧
      (classify_lightning tx_empty).params.preimage = none :=
  ⟨(C10_preimage_revealed_iff_success tx_w10).1.mpr (by decide),
    (C10_preimage_revealed_iff_success tx_empty).2 (by decide)⟩

/-- C6 counterexample: with preimage candidates in two inputs, the
emitted preimage is the second (last) input's element, not the first
element in input order that the claim demands. -/
theorem C6_counterexample :
    txC6.vin.any (fun v => v.is_coinbase) = false ∧
      (classify_lightning txC6).htlc_signals.has_preimage = true ∧
      (classify_lightning txC6).htlc_signals.preimage = some strB ∧
      first_preimage_spec txC6 = some strA ∧
      strB ≠ strA := by
  decide

/-- C6 (amended): for every non-coinbase transaction, `has_preimage`
holds exactly when some witness element of some input is 64 chars of
hex, and `preimage` holds the first matching element (in stack order) of
the last input (in input order) that contains any matching element. -/
theorem C6_preimage_signal (tx : ApiTransaction)
    (h : tx.vin.any (fun v => v.is_coinbase) = false) :
    ((classify_lightning tx).htlc_signals.has_preimage = true ↔
        ∃ v ∈ tx.vin, ∃ w, v.witness = some w ∧
          ∃ e ∈ w, e.length = 64 ∧ is_valid_hex e = true) ∧
      (classify_lightning tx).htlc_signals.preimage =
        tx.vin.reverse.findSome? input_preimage := by
  rw [classify_htlc_signals_eq tx h, detect_htlc_signals_eq]
  refine ⟨?_, rfl⟩
  show (tx.vin.any fun v => (input_preimage v).isSome) = true ↔ _
  rw [List.any_eq_true]
  constructor
  · rintro ⟨v, hv, hsome⟩
    refine ⟨v, hv, ?_⟩
    unfold input_preimage at hsome
    rcases hw : v.witness with _ | w
    · rw [hw] at hsome
      simp at hsome
    · rw [hw] at hsome
      refine ⟨w, rfl, ?_⟩
      unfold find_preimage_in at hsome
      obtain ⟨e, he, hp⟩ := List.find?_isSome.mp hsome
      rw [Bool.and_eq_true, beq_iff_eq] at hp
      exact ⟨e, he, hp.1, hp.2⟩
  · rintro ⟨v, hv, w, hw, e, he, hlen, hhex⟩
    refine ⟨v, hv, ?_⟩
    unfold input_preimage
    rw [hw]
    unfold find_preimage_in
    refine List.find?_isSome.mpr ⟨e, he, ?_⟩
    rw [Bool.and_eq_true, beq_iff_eq]
    exact ⟨hlen, hhex⟩

/-- Witness for C6 at the two-preimage transaction. -/
theorem C6_witness :
    (classify_lightning txC6).htlc_signals.preimage =
        txC6.vin.reverse.findSome? input_preimage ∧
      txC6.vin.reverse.findSome? input_preimage = some strB :=
  ⟨(C6_preimage_signal txC6 (by decide)).2, by decide⟩

/-- C7 counterexample: an asm whose only token is `OP_CLTVFOO` sets
`script_has_cltv` although no token equals `OP_CHECKLOCKTIMEVERIFY` or
`OP_CLTV`, refuting the exact-token-equality claim. -/
theorem C7_counterexample :
    txC7.vin.any (fun v => v.is_coinbase) = false ∧
      (classify_lightning txC7).htlc_signals.script_has_cltv = true ∧
      contains_opcode "OP_CLTVFOO" ["OP_CHECKLOCKTIMEVERIFY", "OP_CLTV"] = false := by
  decide

/-- C7 (amended): for every non-coinbase transaction, `script_has_cltv`
holds exactly when some input's inner witness-script asm contains
`OP_CHECKLOCKTIMEVERIFY` or `OP_CLTV` as a substring, and analogously
`script_has_csv` for `OP_CHECKSEQUENCEVERIFY` / `OP_CSV`. -/
theorem C7_script_opcode_signal (tx : ApiTransaction)
    (h : tx.vin.any (fun v => v.is_coinbase) = false) :
    (classify_lightning tx).htlc_signals.script_has_cltv =
        tx.vin.any (fun v =>
          match v.inner_witnessscript_asm with
          | some asm =>
            str_contains asm "OP_CHECKLOCKTIMEVERIFY" || str_contains asm "OP_CLTV"
          | none => false) ∧
      (classify_lightning tx).htlc_signals.script_has_csv =
        tx.vin.any (fun v =>
          match v.inner_witnessscript_asm with
          | some asm =>
            str_contains asm "OP_CHECKSEQUENCEVERIFY" || str_contains asm "OP_CSV"
          | none => false) := by
  rw [classify_htlc_signals_eq tx h, detect_htlc_signals_eq]
  exact ⟨rfl, rfl⟩

/-- Witness for C7 at the substring-matching transaction. -/
theorem C7_witness :
    (classify_lightning txC7).htlc_signals.script_has_cltv =
        txC7.vin.any (fun v =>
          match v.inner_witnessscript_asm with
          | some asm =>
            str_contains asm "OP_CHECKLOCKTIMEVERIFY" || str_contains asm "OP_CLTV"
          | none => false) ∧
      (classify_lightning txC7).htlc_signals.script_has_cltv = true :=
  ⟨(C7_script_opcode_signal txC7 (by decide)).1, by decide⟩
